import Mathlib

/-!
Shallow embedding of the subdomain-redirect core of the `essential_extensions`
Django package: the `SubdomainRedirect` model
(`essential_extensions/models/SubdomainRedirect.py`) and the
`SubdomainRedirectMiddleware` request interceptor
(`essential_extensions/middleware.py`).

Python strings are modelled as Lean `String`s, and Python's character-based
string operations (`lower`, `split`, `endswith`, `in`, `isalnum`, `len`) are
modelled over `String.data`, the underlying character list; all values
occurring here are ASCII, on which Python `str.lower`/`str.isalnum` agree
with Lean's `Char.toLower`/`Char.isAlphanum`.  Python string truthiness
(`if self.subdomain:`) is emptiness of the string.  Django's `Model.clean`
raising `ValidationError` is modelled as `Except String` carrying the error
message; `clean`'s in-place normalisation of `self.subdomain` is modelled by
returning the updated record on success.
-/

namespace EssentialExtensions

/-- Python `s.lower()` (ASCII): lowercase every character. -/
def pyLower (s : String) : String :=
  ⟨s.data.map Char.toLower⟩

/-- Python `s.split(sep)[0]` for a one-character separator: the characters
before the first occurrence of `sep` (the whole string when `sep` is absent;
`""` when `s` is empty, since Python `"".split(sep)` is `[""]`). -/
def pySplitHead (s : String) (sep : Char) : String :=
  ⟨s.data.takeWhile (fun c => c != sep)⟩

/-- Python `s.endswith(t)`. -/
def pyEndsWith (s t : String) : Bool :=
  t.data.isSuffixOf s.data

/-- Python `s.isalnum()`: `s` is non-empty and every character is
alphanumeric. -/
def pyIsAlnum (s : String) : Bool :=
  !s.data.isEmpty && s.data.all (fun c => c.isAlphanum)

/-- Python `c in s` for a character `c`. -/
def pyContainsChar (s : String) (c : Char) : Bool :=
  s.data.contains c

/-- `SubdomainRedirect.REDIRECT_TYPE_FULL` (models/SubdomainRedirect.py line 15). -/
def REDIRECT_TYPE_FULL : String := "full"

/-- `SubdomainRedirect.REDIRECT_TYPE_PATH_PRESERVE` (models/SubdomainRedirect.py line 16). -/
def REDIRECT_TYPE_PATH_PRESERVE : String := "path_preserve"

/-- Model of the object a rule's generic foreign key may point at.  The
middleware only observes it through
`hasattr(obj, 'get_absolute_url')` / `obj.get_absolute_url()`
(middleware.py lines 128-129): `absolute_url = some u` models an object whose
`get_absolute_url()` returns `u`, `absolute_url = none` models an object
lacking that accessor.  Django model instances are always truthy. -/
structure ContentObject where
  absolute_url : Option String
  deriving DecidableEq

/-- The persisted fields of a `SubdomainRedirect` row that the redirect logic
reads (models/SubdomainRedirect.py lines 24-53).  `content_object = none`
models a rule with no generic foreign key attached (`content_object` is
`None` in Python, hence falsy). -/
structure SubdomainRedirect where
  subdomain : String
  redirect_type : String
  redirect_path : String
  is_active : Bool
  content_object : Option ContentObject
  deriving DecidableEq

/-- Python `s.split('.')[0].lower()` as performed by `clean`
(models/SubdomainRedirect.py line 79): the first dot-separated label,
lowercased. -/
def cleanSubdomain (s : String) : String :=
  pyLower (pySplitHead s '.')

/-- `SubdomainRedirect.clean` (models/SubdomainRedirect.py lines 75-93).
When `self.subdomain` is truthy (non-empty) it is replaced by its first
dot-separated label lowercased, then the character-set check
(`not sub.isalnum() and '-' not in sub`) and the minimum-length check
(`len(sub) < 2`) may raise; afterwards the redirect_type/redirect_path
consistency checks may raise (`not self.redirect_path` is Python truthiness,
i.e. emptiness). -/
def clean (r : SubdomainRedirect) : Except String SubdomainRedirect :=
  let step1 : Except String SubdomainRedirect :=
    if r.subdomain == "" then
      Except.ok r
    else
      let sub := cleanSubdomain r.subdomain
      if !(pyIsAlnum sub) && !(pyContainsChar sub '-') then
        Except.error "Subdomain can only contain letters, numbers, and hyphens"
      else if sub.data.length < 2 then
        Except.error "Subdomain must be at least 2 characters long"
      else
        Except.ok { r with subdomain := sub }
  match step1 with
  | Except.error e => Except.error e
  | Except.ok r2 =>
    if r2.redirect_type == REDIRECT_TYPE_FULL && r2.redirect_path == "" then
      Except.error "Full redirect requires a redirect path"
    else if r2.redirect_type == REDIRECT_TYPE_PATH_PRESERVE && !(r2.redirect_path == "") then
      Except.error "Path preserving redirect should not have a redirect path"
    else
      Except.ok r2

/-- `SubdomainRedirect.get_redirect_url` (models/SubdomainRedirect.py
lines 95-109): `redirect_path` for a full redirect, the request path
otherwise. -/
def get_redirect_url (r : SubdomainRedirect) (request_path : String) : String :=
  if r.redirect_type == REDIRECT_TYPE_FULL then
    r.redirect_path
  else
    request_path

/-- `SubdomainRedirect.get_redirect_for_subdomain` (models/SubdomainRedirect.py
lines 111-120).  The rule store (Django table, with a unique constraint on
`subdomain`) is modelled as a list of rows; `objects.get(subdomain=s.lower(),
is_active=True)` returns the matching row, and `DoesNotExist` is mapped to
`none`. -/
def get_redirect_for_subdomain (store : List SubdomainRedirect) (subdomain : String) :
    Option SubdomainRedirect :=
  store.find? (fun r => r.subdomain == pyLower subdomain && r.is_active)

/-- An incoming HTTP request as observed by the middleware: `host` is
`request.get_host()` (may carry a `:port` suffix), `path` is `request.path`,
`is_secure` is `request.is_secure()`. -/
structure HttpRequest where
  host : String
  path : String
  is_secure : Bool
  deriving DecidableEq

/-- Outcome of one middleware call: pass the request through, or answer with a
redirect response.  `redirect url true` models Django's
`redirect(url, permanent=True)`, an HTTP 301 response whose `Location` is
`url`. -/
inductive MiddlewareResult where
  | passthrough : MiddlewareResult
  | redirect : String → Bool → MiddlewareResult
  deriving DecidableEq

/-- `request.get_host().split(':')[0].lower()` (middleware.py line 110). -/
def requestHostname (req : HttpRequest) : String :=
  pyLower (pySplitHead req.host ':')

/-- Python `hostname.rsplit(sep, 1)[0]` in the one situation the middleware
uses it (middleware.py line 117), namely under the guard
`hostname.endswith(sep)`: when `s` ends with `sep` the last occurrence of
`sep` in `s` is its final `sep.length` characters, so the piece before it is
`s` with that suffix dropped.  (When `s` does not end with `sep` this model
is not consulted: the middleware only calls it inside the `endswith`
branch.) -/
def rsplitLeft (s sep : String) : String :=
  ⟨s.data.take (s.data.length - sep.data.length)⟩

/-- The redirect-path computation inlined in
`SubdomainRedirectMiddleware.__call__` (middleware.py lines 124-134): for a
full redirect use the attached object's `get_absolute_url()` when present,
else the rule's `redirect_path`; otherwise keep the request path. -/
def computeRedirectPath (rule : SubdomainRedirect) (request_path : String) : String :=
  if rule.redirect_type == REDIRECT_TYPE_FULL then
    match rule.content_object with
    | some obj =>
      match obj.absolute_url with
      | some url => url
      | none => rule.redirect_path
    | none => rule.redirect_path
  else
    request_path

/-- `SubdomainRedirectMiddleware.__call__` (middleware.py lines 108-144),
parameterised by the rule store and by `settings.MAIN_DOMAIN`.  Python's
`if subdomain and subdomain not in ['', 'www']` is the conjunction of
non-emptiness (truthiness) with not being `""` or `"www"`. -/
def subdomainRedirectCall (store : List SubdomainRedirect) (main_domain : String)
    (req : HttpRequest) : MiddlewareResult :=
  let hostname := requestHostname req
  if pyEndsWith hostname ("." ++ main_domain) then
    let subdomain := rsplitLeft hostname ("." ++ main_domain)
    if !(subdomain == "") && !(subdomain == "www") then
      match get_redirect_for_subdomain store subdomain with
      | some redirect_obj =>
        let redirect_path := computeRedirectPath redirect_obj req.path
        let protocol := if req.is_secure then "https" else "http"
        MiddlewareResult.redirect (protocol ++ "://" ++ main_domain ++ redirect_path) true
      | none => MiddlewareResult.passthrough
    else
      MiddlewareResult.passthrough
  else
    MiddlewareResult.passthrough

/-- A rule with an attached target that exposes `get_absolute_url`, used to
contrast the model method with the middleware's inline computation. -/
def c9Rule : SubdomainRedirect :=
  ⟨"shop", "full", "/fallback/", true, some ⟨some "/canon/"⟩⟩

/-- Concrete rule store for the C2 witness: one active rule, one inactive. -/
def c2Store : List SubdomainRedirect :=
  [⟨"shop", "full", "/store/", true, none⟩, ⟨"blog", "full", "/b/", false, none⟩]

/-- Concrete rule store for the C3 claim and witness: one active FULL rule
for `"shop"` targeting `/store/`. -/
def c3Store : List SubdomainRedirect :=
  [⟨"shop", "full", "/store/", true, none⟩]

/-- The redirect_type/redirect_path consistency checks of `clean`
(models/SubdomainRedirect.py lines 88-93), as a standalone function; proof
device for reasoning about `clean`. -/
def cleanCombo (r : SubdomainRedirect) : Except String SubdomainRedirect :=
  if r.redirect_type == REDIRECT_TYPE_FULL && r.redirect_path == "" then
    Except.error "Full redirect requires a redirect path"
  else if r.redirect_type == REDIRECT_TYPE_PATH_PRESERVE && !(r.redirect_path == "") then
    Except.error "Path preserving redirect should not have a redirect path"
  else
    Except.ok r

/-- `clean` restated as nested conditionals without the intermediate
`Except` plumbing; proved equal to `clean` in `clean_eq_cases`. -/
def cleanCases (r : SubdomainRedirect) : Except String SubdomainRedirect :=
  if r.subdomain == "" then
    cleanCombo r
  else if !(pyIsAlnum (cleanSubdomain r.subdomain)) &&
      !(pyContainsChar (cleanSubdomain r.subdomain) '-') then
    Except.error "Subdomain can only contain letters, numbers, and hyphens"
  else if (cleanSubdomain r.subdomain).data.length < 2 then
    Except.error "Subdomain must be at least 2 characters long"
  else
    cleanCombo { r with subdomain := cleanSubdomain r.subdomain }

/-- The write-time subdomain format condition exactly as the code checks it
(empty subdomains are exempt; the character-set check passes when the
normalised subdomain is alphanumeric or contains a hyphen; at least two
characters). -/
abbrev subdomainFormatOk (s : String) : Prop :=
  s = "" ∨
    ((pyIsAlnum (cleanSubdomain s) || pyContainsChar (cleanSubdomain s) '-') = true ∧
      2 ≤ (cleanSubdomain s).data.length)

/-- Concrete rule store for the C5 counterexample and witness. -/
def c5Store : List SubdomainRedirect :=
  [⟨"shop", "full", "/store/", true, none⟩]

/-- C1: the interceptor's target computation returns the attached object's
canonical location for a FULL rule whose target exposes one, the rule's
`redirect_path` verbatim for a FULL rule without such a target, and the
incoming request path unchanged for a PATH_PRESERVE rule. -/
theorem c1_compute_target (rule : SubdomainRedirect) (p : String) :
    (∀ obj url, rule.redirect_type = REDIRECT_TYPE_FULL →
        rule.content_object = some obj → obj.absolute_url = some url →
        computeRedirectPath rule p = url) ∧
    (rule.redirect_type = REDIRECT_TYPE_FULL →
        (rule.content_object = none ∨
          ∃ obj, rule.content_object = some obj ∧ obj.absolute_url = none) →
        computeRedirectPath rule p = rule.redirect_path) ∧
    (rule.redirect_type = REDIRECT_TYPE_PATH_PRESERVE →
        computeRedirectPath rule p = p) := by
  refine ⟨?_, ?_, ?_⟩
  · intro obj url ht ho hu
    simp [computeRedirectPath, ht, ho, hu]
  · intro ht hcase
    rcases hcase with h | ⟨obj, ho, hu⟩
    · simp [computeRedirectPath, ht, h]
    · simp [computeRedirectPath, ht, ho, hu]
  · intro ht
    have hne : (REDIRECT_TYPE_PATH_PRESERVE == REDIRECT_TYPE_FULL) = false := by decide
    simp [computeRedirectPath, ht, hne]

/-- C1 witness: the three branches of the target computation evaluated at
concrete rules. -/
theorem c1_witness :
    computeRedirectPath ⟨"shop", "full", "/fallback/", true, some ⟨some "/canon/"⟩⟩ "/p/"
        = "/canon/" ∧
    computeRedirectPath ⟨"shop", "full", "/fallback/", true, none⟩ "/p/" = "/fallback/" ∧
    computeRedirectPath ⟨"shop", "full", "/fallback/", true, some ⟨none⟩⟩ "/p/"
        = "/fallback/" ∧
    computeRedirectPath ⟨"shop", "path_preserve", "", true, some ⟨some "/canon/"⟩⟩ "/p/"
        = "/p/" :=
  ⟨(c1_compute_target _ "/p/").1 ⟨some "/canon/"⟩ "/canon/" rfl rfl rfl,
   (c1_compute_target _ "/p/").2.1 rfl (Or.inl rfl),
   (c1_compute_target _ "/p/").2.1 rfl (Or.inr ⟨⟨none⟩, rfl, rfl⟩),
   (c1_compute_target _ "/p/").2.2 rfl⟩

/-- C9: the model's own `get_redirect_url` returns `redirect_path` for every
FULL rule and never consults the linked content object (its result is
invariant under changing `content_object`), even when a target with a
canonical-location accessor is attached; only the interceptor's inline
computation (`computeRedirectPath`) substitutes the linked object's canonical
location. -/
theorem c9_get_redirect_url_ignores_target (r : SubdomainRedirect) (p : String) :
    (r.redirect_type = REDIRECT_TYPE_FULL → get_redirect_url r p = r.redirect_path) ∧
    (∀ obj, get_redirect_url { r with content_object := obj } p = get_redirect_url r p) ∧
    (get_redirect_url c9Rule p = "/fallback/" ∧ computeRedirectPath c9Rule p = "/canon/") := by
  refine ⟨?_, ?_, rfl, rfl⟩
  · intro ht
    simp [get_redirect_url, ht]
  · intro obj
    rfl

/-- C9 witness: evaluated at a concrete FULL rule with an attached target. -/
theorem c9_witness :
    get_redirect_url c9Rule "/p/" = "/fallback/" ∧ computeRedirectPath c9Rule "/p/" = "/canon/" :=
  ⟨(c9_get_redirect_url_ignores_target c9Rule "/p/").1 rfl,
   (c9_get_redirect_url_ignores_target c9Rule "/p/").2.2.2⟩

/-- C10: for a rule whose subdomain is the empty string, `clean` skips the
character-set and minimum-length checks entirely and applies only the
redirect_type/redirect_path consistency checks; an empty subdomain passes
format validation. -/
theorem c10_empty_subdomain_skips_format (r : SubdomainRedirect) (h : r.subdomain = "") :
    clean r =
      (if r.redirect_type == REDIRECT_TYPE_FULL && r.redirect_path == "" then
        Except.error "Full redirect requires a redirect path"
      else if r.redirect_type == REDIRECT_TYPE_PATH_PRESERVE && !(r.redirect_path == "") then
        Except.error "Path preserving redirect should not have a redirect path"
      else Except.ok r) := by
  simp [clean, h]

/-- C10 witness: an empty subdomain raises no format error; with a consistent
redirect configuration `clean` succeeds, with an inconsistent one it raises
the consistency error. -/
theorem c10_witness :
    clean ⟨"", "full", "/x/", true, none⟩ = Except.ok ⟨"", "full", "/x/", true, none⟩ ∧
    clean ⟨"", "full", "", true, none⟩ =
      Except.error "Full redirect requires a redirect path" :=
  ⟨(c10_empty_subdomain_skips_format _ rfl).trans rfl,
   (c10_empty_subdomain_skips_format _ rfl).trans rfl⟩

/-- C7 (code bug): the character-set check in `clean` fires only when the
normalised subdomain is non-alphanumeric AND contains no hyphen, so the
presence of a single hyphen disables it: `"ab$-cd"` contains `'$'`, is not
alphanumeric, yet `clean` accepts it — contradicting the code's own error
message "Subdomain can only contain letters, numbers, and hyphens".  Without
a hyphen the same foreign character is rejected, and the minimum-length check
behaves as specified. -/
theorem c7_char_check_divergence :
    clean ⟨"ab$-cd", "full", "/x/", true, none⟩ =
      Except.ok ⟨"ab$-cd", "full", "/x/", true, none⟩ ∧
    pyIsAlnum "ab$-cd" = false ∧
    clean ⟨"ab$cd", "full", "/x/", true, none⟩ =
      Except.error "Subdomain can only contain letters, numbers, and hyphens" ∧
    clean ⟨"a", "full", "/x/", true, none⟩ =
      Except.error "Subdomain must be at least 2 characters long" :=
  ⟨rfl, rfl, rfl, rfl⟩

/-- Soundness half of the resolver: a returned rule is a stored, active rule
whose subdomain is the lowercased query. -/
theorem resolve_mem_of_some {store : List SubdomainRedirect} {s : String}
    {r : SubdomainRedirect} (h : get_redirect_for_subdomain store s = some r) :
    r ∈ store ∧ r.subdomain = pyLower s ∧ r.is_active = true := by
  have h' : store.find? (fun x => x.subdomain == pyLower s && x.is_active) = some r := h
  have hp := List.find?_some h'
  have hm : r ∈ store := List.mem_of_find?_eq_some h'
  simp only [Bool.and_eq_true, beq_iff_eq] at hp
  exact ⟨hm, hp.1, hp.2⟩

/-- Completeness half of the resolver: under the table's unique constraint on
`subdomain`, a stored active rule matching the lowercased query is returned. -/
theorem resolve_eq_some_of_mem {store : List SubdomainRedirect}
    (hu : store.Pairwise (fun a b => a.subdomain ≠ b.subdomain))
    {s : String} {r : SubdomainRedirect} (hr : r ∈ store)
    (hsub : r.subdomain = pyLower s) (hact : r.is_active = true) :
    get_redirect_for_subdomain store s = some r := by
  induction store with
  | nil => cases hr
  | cons a t ih =>
    rcases List.mem_cons.mp hr with h | h
    · subst h
      show List.find? _ (r :: t) = some r
      rw [List.find?_cons_of_pos]
      simp [hsub, hact]
    · have hne : a.subdomain ≠ r.subdomain :=
        (List.pairwise_cons.mp hu).1 r h
      rw [hsub] at hne
      show List.find? _ (a :: t) = some r
      rw [List.find?_cons_of_neg]
      · exact ih (List.pairwise_cons.mp hu).2 h
      · simp [hne]

/-- C2: under the unique constraint on `subdomain`,
`get_redirect_for_subdomain` returns exactly the stored rule whose subdomain
equals the lowercasing of the query and which is active, and returns `none`
when no such rule exists (absent subdomain, or matching rule inactive): a
lookup miss is the normal value `none`, not an error. -/
theorem c2_resolve (store : List SubdomainRedirect)
    (huniq : store.Pairwise (fun a b => a.subdomain ≠ b.subdomain)) (s : String) :
    (∀ r, r ∈ store → r.subdomain = pyLower s → r.is_active = true →
        get_redirect_for_subdomain store s = some r) ∧
    (∀ r, get_redirect_for_subdomain store s = some r →
        r ∈ store ∧ r.subdomain = pyLower s ∧ r.is_active = true) ∧
    ((¬∃ r, r ∈ store ∧ r.subdomain = pyLower s ∧ r.is_active = true) →
        get_redirect_for_subdomain store s = none) := by
  refine ⟨?_, ?_, ?_⟩
  · intro r hr hsub hact
    exact resolve_eq_some_of_mem huniq hr hsub hact
  · intro r h
    exact resolve_mem_of_some h
  · intro hno
    show List.find? _ store = none
    rw [List.find?_eq_none]
    intro x hx hpx
    simp only [Bool.and_eq_true, beq_iff_eq] at hpx
    exact hno ⟨x, hx, hpx.1, hpx.2⟩

/-- C2 witness: on a concrete store, a lookup for `"Shop"` finds the active
`"shop"` rule, and a lookup for the inactive `"blog"` rule yields `none`. -/
theorem c2_witness :
    get_redirect_for_subdomain c2Store "Shop" =
      some ⟨"shop", "full", "/store/", true, none⟩ ∧
    get_redirect_for_subdomain c2Store "blog" = none :=
  ⟨(c2_resolve c2Store (by decide) "Shop").1 ⟨"shop", "full", "/store/", true, none⟩
      (by decide) (by decide) rfl,
   (c2_resolve c2Store (by decide) "blog").2.2 (by decide)⟩

/-- C3: whenever the interceptor redirects, the response is permanent (301)
and its location is the absolute URL built from the request's scheme, the
primary domain and the computed target path; in particular
`shop.example.com` over https with an active FULL rule to `/store/` is
redirected to `https://example.com/store/`. -/
theorem c3_redirect_is_permanent_absolute :
    (∀ store dom req url perm,
        subdomainRedirectCall store dom req = MiddlewareResult.redirect url perm →
        perm = true ∧
        ∃ r, get_redirect_for_subdomain store
              (rsplitLeft (requestHostname req) ("." ++ dom)) = some r ∧
          url = (if req.is_secure then "https" else "http") ++ "://" ++ dom ++
              computeRedirectPath r req.path) ∧
    (∀ p : String,
        subdomainRedirectCall c3Store "example.com" ⟨"shop.example.com", p, true⟩ =
          MiddlewareResult.redirect "https://example.com/store/" true) := by
  constructor
  · intro store dom req url perm h
    simp only [subdomainRedirectCall] at h
    split at h
    · split at h
      · split at h
        · injection h with hurl hperm
          subst hurl
          subst hperm
          rename_i robj hfind
          exact ⟨rfl, robj, hfind, rfl⟩
        · exact absurd h (by simp)
      · exact absurd h (by simp)
    · exact absurd h (by simp)
  · intro p
    rfl

/-- C3 witness: the concrete shop scenario, with the permanence conclusion of
the general statement instantiated on it. -/
theorem c3_witness :
    subdomainRedirectCall c3Store "example.com" ⟨"shop.example.com", "/p/", true⟩ =
      MiddlewareResult.redirect "https://example.com/store/" true ∧ true = true :=
  ⟨c3_redirect_is_permanent_absolute.2 "/p/",
   (c3_redirect_is_permanent_absolute.1 _ _ _ _ _
      (c3_redirect_is_permanent_absolute.2 "/p/")).1⟩

/-- C4: the interceptor passes the request through unmodified whenever the
port-stripped lowercased hostname does not end with `.{primary_domain}`, or
the extracted candidate is empty or `"www"`; in particular
`www.example.com` and `example.com` never produce a redirect, whatever the
rule store holds. -/
theorem c4_passthrough_conditions :
    (∀ store dom req,
        (¬pyEndsWith (requestHostname req) ("." ++ dom) = true ∨
          rsplitLeft (requestHostname req) ("." ++ dom) = "" ∨
          rsplitLeft (requestHostname req) ("." ++ dom) = "www") →
        subdomainRedirectCall store dom req = MiddlewareResult.passthrough) ∧
    (∀ store p sec,
        subdomainRedirectCall store "example.com" ⟨"www.example.com", p, sec⟩ =
          MiddlewareResult.passthrough) ∧
    (∀ store p sec,
        subdomainRedirectCall store "example.com" ⟨"example.com", p, sec⟩ =
          MiddlewareResult.passthrough) := by
  refine ⟨?_, ?_, ?_⟩
  · intro store dom req hcase
    simp only [subdomainRedirectCall]
    split
    · rename_i hends
      split
      · rename_i hsub
        simp only [Bool.and_eq_true, Bool.not_eq_true', beq_eq_false_iff_ne] at hsub
        rcases hcase with h | h | h
        · exact absurd hends h
        · exact absurd h hsub.1
        · exact absurd h hsub.2
      · rfl
    · rfl
  · intro store p sec
    rfl
  · intro store p sec
    rfl

/-- C4 witness: a foreign host, and the two spec hostnames, on concrete
requests and an arbitrary store. -/
theorem c4_witness :
    subdomainRedirectCall c3Store "example.com" ⟨"other.org", "/", false⟩ =
      MiddlewareResult.passthrough ∧
    subdomainRedirectCall c3Store "example.com" ⟨"www.example.com", "/", false⟩ =
      MiddlewareResult.passthrough ∧
    subdomainRedirectCall c3Store "example.com" ⟨"example.com", "/", false⟩ =
      MiddlewareResult.passthrough :=
  ⟨c4_passthrough_conditions.1 c3Store "example.com" ⟨"other.org", "/", false⟩
      (Or.inl (by decide)),
   c4_passthrough_conditions.2.1 c3Store "/" false,
   c4_passthrough_conditions.2.2 c3Store "/" false⟩

/-- `clean` agrees with its nested-conditional restatement. -/
theorem clean_eq_cases (r : SubdomainRedirect) : clean r = cleanCases r := by
  unfold clean cleanCases
  dsimp only
  by_cases hs : (r.subdomain == "") = true
  · simp only [if_pos hs]
    rfl
  · simp only [if_neg hs]
    by_cases hchk : (!(pyIsAlnum (cleanSubdomain r.subdomain)) &&
        !(pyContainsChar (cleanSubdomain r.subdomain) '-')) = true
    · simp only [if_pos hchk]
    · simp only [if_neg hchk]
      by_cases hlen : (cleanSubdomain r.subdomain).data.length < 2
      · simp only [if_pos hlen]
      · simp only [if_neg hlen]
        rfl

/-- A FULL rule with an empty redirect path fails the consistency checks. -/
theorem cleanCombo_error_full {x : SubdomainRedirect}
    (ht : x.redirect_type = REDIRECT_TYPE_FULL) (hp : x.redirect_path = "") :
    cleanCombo x = Except.error "Full redirect requires a redirect path" := by
  unfold cleanCombo
  rw [if_pos (by simp [ht, hp])]

/-- A PATH_PRESERVE rule with a non-empty redirect path fails the
consistency checks. -/
theorem cleanCombo_error_pp {x : SubdomainRedirect}
    (ht : x.redirect_type = REDIRECT_TYPE_PATH_PRESERVE) (hp : x.redirect_path ≠ "") :
    cleanCombo x = Except.error "Path preserving redirect should not have a redirect path" := by
  unfold cleanCombo
  have hne : (REDIRECT_TYPE_PATH_PRESERVE == REDIRECT_TYPE_FULL) = false := by decide
  have h1 : ¬((x.redirect_type == REDIRECT_TYPE_FULL && x.redirect_path == "") = true) := by
    simp [ht, hne]
  have h2 : (x.redirect_type == REDIRECT_TYPE_PATH_PRESERVE && !(x.redirect_path == "")) = true := by
    simp [ht, beq_eq_false_iff_ne.mpr hp]
  rw [if_neg h1, if_pos h2]

/-- A consistent redirect configuration passes the consistency checks. -/
theorem cleanCombo_ok {x : SubdomainRedirect}
    (h1 : ¬(x.redirect_type = REDIRECT_TYPE_FULL ∧ x.redirect_path = ""))
    (h2 : ¬(x.redirect_type = REDIRECT_TYPE_PATH_PRESERVE ∧ x.redirect_path ≠ "")) :
    cleanCombo x = Except.ok x := by
  unfold cleanCombo
  have hc1 : ¬((x.redirect_type == REDIRECT_TYPE_FULL && x.redirect_path == "") = true) := by
    intro hc
    rcases Bool.and_eq_true_iff.mp hc with ⟨ha, hb⟩
    exact h1 ⟨eq_of_beq ha, eq_of_beq hb⟩
  have hc2 : ¬((x.redirect_type == REDIRECT_TYPE_PATH_PRESERVE &&
      !(x.redirect_path == "")) = true) := by
    intro hc
    rcases Bool.and_eq_true_iff.mp hc with ⟨ha, hb⟩
    rw [Bool.not_eq_true'] at hb
    exact h2 ⟨eq_of_beq ha, beq_eq_false_iff_ne.mp hb⟩
  rw [if_neg hc1, if_neg hc2]

/-- The consistency checks return the record they were given. -/
theorem cleanCombo_ok_inv {x y : SubdomainRedirect} (h : cleanCombo x = Except.ok y) : y = x := by
  unfold cleanCombo at h
  split at h
  · cases h
  · split at h
    · cases h
    · cases h
      rfl

/-- Case analysis of `clean`: an empty subdomain goes straight to the
consistency checks; a non-empty subdomain in valid format is normalised and
then checked for consistency; a non-empty subdomain in invalid format is
rejected. -/
theorem clean_shape (r : SubdomainRedirect) :
    (r.subdomain = "" ∧ clean r = cleanCombo r) ∨
    (r.subdomain ≠ "" ∧ subdomainFormatOk r.subdomain ∧
      clean r = cleanCombo { r with subdomain := cleanSubdomain r.subdomain }) ∨
    (¬subdomainFormatOk r.subdomain ∧ ∃ e, clean r = Except.error e) := by
  rw [clean_eq_cases]
  unfold cleanCases
  by_cases hs : (r.subdomain == "") = true
  · exact Or.inl ⟨by simpa using hs, by rw [if_pos hs]⟩
  · rw [if_neg hs]
    have hs' : r.subdomain ≠ "" := by simpa using hs
    by_cases hchk : (!(pyIsAlnum (cleanSubdomain r.subdomain)) &&
        !(pyContainsChar (cleanSubdomain r.subdomain) '-')) = true
    · refine Or.inr (Or.inr ⟨?_, ?_⟩)
      · rcases Bool.and_eq_true_iff.mp hchk with ⟨ha, hb⟩
        rw [Bool.not_eq_true'] at ha hb
        intro hfmt
        rcases hfmt with h | ⟨ho, -⟩
        · exact hs' h
        · rcases Bool.or_eq_true_iff.mp ho with h | h
          · rw [ha] at h
            cases h
          · rw [hb] at h
            cases h
      · rw [if_pos hchk]
        exact ⟨_, rfl⟩
    · rw [if_neg hchk]
      have ho : (pyIsAlnum (cleanSubdomain r.subdomain) ||
          pyContainsChar (cleanSubdomain r.subdomain) '-') = true := by
        cases ha : pyIsAlnum (cleanSubdomain r.subdomain) with
        | true => simp [ha]
        | false =>
          cases hb : pyContainsChar (cleanSubdomain r.subdomain) '-' with
          | true => simp [hb]
          | false => exact absurd (by simp [ha, hb]) hchk
      by_cases hlen : (cleanSubdomain r.subdomain).data.length < 2
      · refine Or.inr (Or.inr ⟨?_, ?_⟩)
        · intro hfmt
          rcases hfmt with h | ⟨-, hle⟩
          · exact hs' h
          · omega
        · rw [if_pos hlen]
          exact ⟨_, rfl⟩
      · refine Or.inr (Or.inl ⟨hs', Or.inr ⟨ho, by omega⟩, ?_⟩)
        rw [if_neg hlen]

/-- On success, `clean` leaves the subdomain field equal to the first
dot-separated label of its input, lowercased. -/
theorem clean_ok_subdomain {r r' : SubdomainRedirect} (h : clean r = Except.ok r') :
    r'.subdomain = cleanSubdomain r.subdomain := by
  rcases clean_shape r with ⟨hs, hc⟩ | ⟨hs, hfmt, hc⟩ | ⟨hfmt, e, he⟩
  · rw [hc] at h
    rw [cleanCombo_ok_inv h, hs]
    rfl
  · rw [hc] at h
    rw [cleanCombo_ok_inv h]
  · rw [he] at h
    cases h

/-- C5 counterexample: lookup does not domain-suffix-strip, so resolving
`"Shop.example.com"` (which lowercases to `"shop.example.com"`) differs from
resolving its storage-time normal form `"shop"` on a store holding the
cleaned rule `"shop"`. -/
theorem c5_counterexample :
    ¬(get_redirect_for_subdomain c5Store "Shop.example.com" =
      get_redirect_for_subdomain c5Store (cleanSubdomain "Shop.example.com")) := by
  decide

/-- C5 amended: case-folding and suffix-stripping both happen at storage time
(`clean` stores the first dot-separated label of the input, lowercased), but
lookup only case-folds: `get_redirect_for_subdomain` gives equal results on
inputs with equal lowercasings, so `"Shop"` and `"shop"` resolve identically,
while `"Shop.example.com"` and `"shop"` need not (the interceptor, not the
resolver, strips the domain suffix before lookup). -/
theorem c5_amended_normalization :
    (∀ r r' : SubdomainRedirect, clean r = Except.ok r' →
        r'.subdomain = cleanSubdomain r.subdomain) ∧
    (∀ (store : List SubdomainRedirect) (s t : String), pyLower s = pyLower t →
        get_redirect_for_subdomain store s = get_redirect_for_subdomain store t) := by
  constructor
  · intro r r' h
    exact clean_ok_subdomain h
  · intro store s t h
    simp only [get_redirect_for_subdomain, h]

/-- C5 witness: `"Shop"` and `"shop"` resolve identically on a concrete
store, and `clean` normalises `"Shop.example.com"` to `"shop"`. -/
theorem c5_witness :
    get_redirect_for_subdomain c5Store "Shop" = get_redirect_for_subdomain c5Store "shop" ∧
    (⟨"shop", "full", "/x/", true, none⟩ : SubdomainRedirect).subdomain =
      cleanSubdomain "Shop.example.com" :=
  ⟨c5_amended_normalization.2 c5Store "Shop" "shop" (by decide),
   c5_amended_normalization.1 ⟨"Shop.example.com", "full", "/x/", true, none⟩
      ⟨"shop", "full", "/x/", true, none⟩ rfl⟩

/-- C6: `clean` fails on every FULL rule with an empty redirect path and on
every PATH_PRESERVE rule with a non-empty redirect path; when the subdomain
passes the format checks, every consistent redirect_type/redirect_path
combination passes `clean`. -/
theorem c6_combination_validation :
    (∀ r : SubdomainRedirect, r.redirect_type = REDIRECT_TYPE_FULL → r.redirect_path = "" →
        ∃ e, clean r = Except.error e) ∧
    (∀ r : SubdomainRedirect, r.redirect_type = REDIRECT_TYPE_PATH_PRESERVE →
        r.redirect_path ≠ "" → ∃ e, clean r = Except.error e) ∧
    (∀ r : SubdomainRedirect, subdomainFormatOk r.subdomain →
        ¬(r.redirect_type = REDIRECT_TYPE_FULL ∧ r.redirect_path = "") →
        ¬(r.redirect_type = REDIRECT_TYPE_PATH_PRESERVE ∧ r.redirect_path ≠ "") →
        ∃ r', clean r = Except.ok r') := by
  refine ⟨?_, ?_, ?_⟩
  · intro r ht hp
    rcases clean_shape r with ⟨hs, hc⟩ | ⟨hs, hfmt, hc⟩ | ⟨hfmt, e, he⟩
    · exact ⟨_, hc.trans (cleanCombo_error_full ht hp)⟩
    · exact ⟨_, hc.trans (cleanCombo_error_full ht hp)⟩
    · exact ⟨e, he⟩
  · intro r ht hp
    rcases clean_shape r with ⟨hs, hc⟩ | ⟨hs, hfmt, hc⟩ | ⟨hfmt, e, he⟩
    · exact ⟨_, hc.trans (cleanCombo_error_pp ht hp)⟩
    · exact ⟨_, hc.trans (cleanCombo_error_pp ht hp)⟩
    · exact ⟨e, he⟩
  · intro r hfmt hnf hnp
    rcases clean_shape r with ⟨hs, hc⟩ | ⟨hs, hfmt2, hc⟩ | ⟨hnfmt, e, he⟩
    · exact ⟨r, hc.trans (cleanCombo_ok hnf hnp)⟩
    · exact ⟨_, hc.trans (cleanCombo_ok hnf hnp)⟩
    · exact absurd hfmt hnfmt

/-- C6 witness: the two inconsistent combinations fail and the two
consistent ones succeed on concrete rules. -/
theorem c6_witness :
    (clean ⟨"shop", "full", "", true, none⟩).isOk = false ∧
    (clean ⟨"shop", "path_preserve", "/x/", true, none⟩).isOk = false ∧
    (clean ⟨"shop", "full", "/x/", true, none⟩).isOk = true ∧
    (clean ⟨"shop", "path_preserve", "", true, none⟩).isOk = true := by
  refine ⟨?_, ?_, ?_, ?_⟩
  · obtain ⟨e, he⟩ := c6_combination_validation.1 ⟨"shop", "full", "", true, none⟩ rfl rfl
    rw [he]
    rfl
  · obtain ⟨e, he⟩ := c6_combination_validation.2.1 ⟨"shop", "path_preserve", "/x/", true, none⟩
      rfl (by decide)
    rw [he]
    rfl
  · obtain ⟨r', hr⟩ := c6_combination_validation.2.2 ⟨"shop", "full", "/x/", true, none⟩
      (by decide) (by decide) (by decide)
    rw [hr]
    rfl
  · obtain ⟨r', hr⟩ := c6_combination_validation.2.2 ⟨"shop", "path_preserve", "", true, none⟩
      (by decide) (by decide) (by decide)
    rw [hr]
    rfl


/-- C8 counterexample: for the hostname `a.b.example.com` under primary
domain `example.com`, the candidate the interceptor hands to the resolver is
`"a.b"` — the whole remainder before the domain suffix — not the leftmost
label `"a"`. -/
theorem c8_counterexample :
    rsplitLeft "a.b.example.com" ".example.com" = "a.b" ∧
    rsplitLeft "a.b.example.com" ".example.com" ≠ "a" :=
  ⟨by decide, by decide⟩

/-- C8 amended: when the hostname ends with `.{primary_domain}`, the
interceptor's subdomain candidate is everything before that suffix, which may
itself contain dots: for `a.b.{primary_domain}` the candidate is `"a.b"`. -/
theorem c8_amended_suffix_strip :
    (∀ sub dom : String, rsplitLeft (sub ++ ("." ++ dom)) ("." ++ dom) = sub) ∧
    (∀ a b dom : String,
        rsplitLeft (a ++ "." ++ b ++ ("." ++ dom)) ("." ++ dom) = a ++ "." ++ b) := by
  have key : ∀ sub dom : String, rsplitLeft (sub ++ ("." ++ dom)) ("." ++ dom) = sub := by
    intro sub dom
    show String.mk ((sub ++ ("." ++ dom)).data.take
        ((sub ++ ("." ++ dom)).data.length - ("." ++ dom).data.length)) = sub
    have hdata : (sub ++ ("." ++ dom)).data = sub.data ++ ("." ++ dom).data := rfl
    rw [hdata, List.length_append, Nat.add_sub_cancel, List.take_left]
  exact ⟨key, fun a b dom => key (a ++ "." ++ b) dom⟩

end EssentialExtensions
